import Mathlib

/-!
Shallow embedding of `ichnaea/api/locate/provider.py` (class `Provider`):
the `should_locate` policy gate, the `_estimate_accuracy` cluster accuracy
estimator, and the `log_hit` / `log_success` / `log_failure` telemetry hooks.

Conventions of the embedding:
* Python numbers (latitudes, longitudes, ranges, accuracies, distances in
  this module) become `ℚ`.
* A nullable Python number becomes `Option ℚ`.
* A Python function that can raise becomes `Except`.
* Telemetry (statsd counter increments) becomes the list of emitted metric
  names, and the raven `captureException` side effect becomes a `Bool` flag
  in the function result.
-/

namespace Ichnaea

/-- A Python runtime value as it can appear in a query's fallback map.
Covers `None`, booleans, integers and strings, which is enough to decide
`bool(...)` coercion behaviour on the values relevant here. -/
inductive PyVal
  | none
  | bool (b : Bool)
  | int (n : Int)
  | str (s : String)
deriving DecidableEq

/-- Python truthiness (`bool(v)`): `None`, `False`, `0` and `''` are falsy,
everything else here is truthy. -/
def PyVal.truthy : PyVal → Bool
  | PyVal.none => false
  | PyVal.bool b => b
  | PyVal.int n => decide (n ≠ 0)
  | PyVal.str s => decide (s ≠ "")

/-- Python `d.get(k, default)` on a string-keyed dict, embedded as an
association list (first binding wins, as dict keys are unique). -/
def dictGet (d : List (String × PyVal)) (k : String) (default : PyVal) : PyVal :=
  match d.find? (fun p => p.1 == k) with
  | some p => p.2
  | Option.none => default

/-- Modelled from the spec: the Query model (`ichnaea/api/locate/query.py` is
not under src/).  The spec describes an "optional per-source fallback-policy
map"; `should_locate` only reads `query.fallbacks`, guarded by a `try` that
catches `ValueError`.  An absent map and an empty map are both embedded as
`Except.ok []` (the source treats both as falsy in `if fallbacks:`); a read
that raises `ValueError` (a malformed fallback map) is `Except.error ()`. -/
structure Query where
  fallbacks : Except Unit (List (String × PyVal))

/-- Embeds `Provider.should_locate(self, query, location)`.

`fallback_field` is the provider's configured `fallback_field` attribute
(`Option.none` embeds Python `None`).  The `location` argument is accepted at
any type because the source never inspects it.  The result is the pair of the
returned boolean and whether `self.raven_client.captureException()` ran:

    if self.fallback_field is not None:
        try:
            fallbacks = query.fallbacks
            if fallbacks:
                return bool(fallbacks.get(self.fallback_field, True))
        except ValueError:
            self.raven_client.captureException()
    return True
-/
def should_locate {α : Type} (fallback_field : Option String) (query : Query)
    (location : α) : Bool × Bool :=
  match fallback_field with
  | Option.none => (true, false)
  | some field =>
    match query.fallbacks with
    | Except.error _ => (true, true)
    | Except.ok fallbacks =>
      if fallbacks.isEmpty then (true, false)
      else ((dictGet fallbacks field (PyVal.bool true)).truthy, false)

/-- The `Network` namedtuple: `Network = namedtuple('Network', ['key', 'lat',
'lon', 'range'])`.  The `range` field is a nullable accuracy radius. -/
structure Network where
  key : String
  lat : ℚ
  lon : ℚ
  range : Option ℚ
deriving DecidableEq

/-- Failure of `_estimate_accuracy`.  With an empty `points` sequence the
source reaches `max([...])` over an empty list, which raises `ValueError` in
Python; the spec names this precondition violation `EmptyCluster`. -/
inductive ClusterError
  | emptyCluster
deriving DecidableEq

/-- Python 2 `max(accuracy, minimum)` where `accuracy` may be `None`:
in Python 2, `None` compares less than every number, so the result is
`minimum` when `accuracy` is `None`. -/
def pyMaxOpt (accuracy : Option ℚ) (minimum : ℚ) : ℚ :=
  match accuracy with
  | Option.none => minimum
  | some x => max x minimum

/-- Embeds `Provider._estimate_accuracy(self, lat, lon, points, minimum)`.

`dist` embeds `ichnaea.geocalc.distance` (the module is not under src/); it
is kept abstract as a parameter, so every theorem below holds for any
distance function.  The source multiplies its result by 1000 to obtain
meters, so `dist` stands for the kilometer-valued great-circle distance:

    if len(points) == 1:
        accuracy = points[0].range
    else:
        accuracy = max([distance(lat, lon, p.lat, p.lon) * 1000
                        for p in points])
    if accuracy is not None:
        accuracy = float(accuracy)
    return max(accuracy, minimum)
-/
def estimate_accuracy (dist : ℚ → ℚ → ℚ → ℚ → ℚ) (lat lon : ℚ)
    (points : List Network) (minimum : ℚ) : Except ClusterError ℚ :=
  let accuracy : Except ClusterError (Option ℚ) :=
    if points.length = 1 then
      match points with
      | p :: _ => Except.ok p.range
      | [] => Except.error ClusterError.emptyCluster
    else
      match points.map (fun p => dist lat lon p.lat p.lon * 1000) with
      | [] => Except.error ClusterError.emptyCluster
      | d :: ds => Except.ok (some (ds.foldl max d))
  match accuracy with
  | Except.error e => Except.error e
  | Except.ok a => Except.ok (pyMaxOpt a minimum)

/-- The caller identity object (`ApiKey`): a `name` used to namespace
per-caller counters and a `log` flag gating them. -/
structure ApiKey where
  name : String
  log : Bool
deriving DecidableEq

/-- Modelled from the spec: `StatsLogger.stat_count`
(`ichnaea/api/locate/stats.py` is not under src/).  The spec's telemetry sink
is `count(metric_name)`, a fire-and-forget counter increment; an emission is
embedded as the metric name appended to the trace of emitted counters. -/
def stat_count (metric : String) : List String := [metric]

/-- Embeds `Provider.log_hit(self)`: emits
`'{metric}_hit'.format(metric=self.log_name)`.  The `api_key` is a parameter
of the provider but is not consulted here. -/
def log_hit (log_name : String) (api_key : ApiKey) : List String :=
  stat_count (log_name ++ "_hit")

/-- Embeds `Provider.log_success(self)`: when `self.api_key.log` is set, emits
`'api_log.{key}.{metric}_hit'` with the caller's name and the provider's
`log_name`; otherwise emits nothing. -/
def log_success (log_name : String) (api_key : ApiKey) : List String :=
  if api_key.log then
    stat_count ("api_log." ++ api_key.name ++ "." ++ log_name ++ "_hit")
  else []

/-- Embeds `Provider.log_failure(self)`: when `self.api_key.log` is set, emits
`'api_log.{key}.{metric}_miss'`; otherwise emits nothing. -/
def log_failure (log_name : String) (api_key : ApiKey) : List String :=
  if api_key.log then
    stat_count ("api_log." ++ api_key.name ++ "." ++ log_name ++ "_miss")
  else []

/-! ### Helper lemmas

Python's `max(list)` on a non-empty list is a left fold of the binary `max`
over the tail, starting from the head.  These lemmas characterise that fold.
-/

/-- The initial value is a lower bound of the fold. -/
lemma le_foldl_max (ds : List ℚ) : ∀ d : ℚ, d ≤ ds.foldl max d := by
  induction ds with
  | nil => intro d; exact le_refl d
  | cons x xs ih => intro d; exact le_trans (le_max_left d x) (ih (max d x))

/-- Every list element is a lower bound of the fold. -/
lemma mem_le_foldl_max (ds : List ℚ) : ∀ d x : ℚ, x ∈ ds → x ≤ ds.foldl max d := by
  induction ds with
  | nil => intro d x hx; cases hx
  | cons y ys ih =>
    intro d x hx
    rcases List.mem_cons.mp hx with h | h
    · subst h; exact le_trans (le_max_right d x) (le_foldl_max ys (max d x))
    · exact ih (max d y) x h

/-- The fold is attained: it is the initial value or one of the elements. -/
lemma foldl_max_eq_init_or_mem (ds : List ℚ) :
    ∀ d : ℚ, ds.foldl max d = d ∨ ds.foldl max d ∈ ds := by
  induction ds with
  | nil => intro d; exact Or.inl rfl
  | cons y ys ih =>
    intro d
    rw [List.foldl_cons]
    rcases ih (max d y) with h | h
    · rw [h]
      rcases max_choice d y with h2 | h2
      · exact Or.inl h2
      · exact Or.inr (by rw [h2]; exact List.mem_cons_self y ys)
    · exact Or.inr (List.mem_cons_of_mem y h)

/-- Appending one element to the folded list takes a `max` with it. -/
lemma foldl_max_append (ds : List ℚ) (x d : ℚ) :
    (ds ++ [x]).foldl max d = max (ds.foldl max d) x := by
  rw [List.foldl_append]; rfl

/-- Unfolding `estimate_accuracy` on a single-element cluster: the accuracy is
the point's own `range`, floored (with Python 2 `None` handling) at `minimum`. -/
lemma estimate_accuracy_single (dist : ℚ → ℚ → ℚ → ℚ → ℚ) (lat lon minimum : ℚ)
    (p : Network) :
    estimate_accuracy dist lat lon [p] minimum =
      Except.ok (pyMaxOpt p.range minimum) := rfl

/-- Unfolding `estimate_accuracy` on a cluster of at least two points: the
accuracy is the fold of `max` over the per-point distances times 1000,
floored at `minimum`. -/
lemma estimate_accuracy_cons_cons (dist : ℚ → ℚ → ℚ → ℚ → ℚ) (lat lon minimum : ℚ)
    (a b : Network) (t : List Network) :
    estimate_accuracy dist lat lon (a :: b :: t) minimum =
      Except.ok (max (((b :: t).map (fun p => dist lat lon p.lat p.lon * 1000)).foldl max
        (dist lat lon a.lat a.lon * 1000)) minimum) := rfl

/-! ### Claim theorems -/

/-- C5: For every query and every current-best location, `should_locate`
returns true whenever the provider has no configured `fallback_field`. -/
theorem should_locate_true_of_no_fallback_field {α : Type} (q : Query)
    (location : α) :
    (should_locate Option.none q location).1 = true := rfl

/-- C10: The return value of `should_locate` is independent of its
current-best-location argument: for every fallback field configuration and
query, and any two location values (even of different types), the results
coincide. -/
theorem should_locate_independent_of_location {α β : Type}
    (fallback_field : Option String) (q : Query) (l1 : α) (l2 : β) :
    should_locate fallback_field q l1 = should_locate fallback_field q l2 := rfl

/-- C8: When reading the query's fallback map raises a malformed-value error
(`ValueError`), `should_locate` reports the exception (raven
`captureException` runs) and returns true; the exception never propagates out
of `should_locate` (the embedding is a total function). -/
theorem should_locate_recovers_from_value_error {α : Type} (field : String)
    (q : Query) (location : α) (h : q.fallbacks = Except.error ()) :
    should_locate (some field) q location = (true, true) := by
  simp [should_locate, h]

/-- Witness for C8 at the concrete query whose fallback map read fails. -/
theorem should_locate_recovers_from_value_error_witness :
    (Query.mk (Except.error ())).fallbacks = Except.error () ∧
      should_locate (some "fallback") (Query.mk (Except.error ())) () =
        (true, true) :=
  ⟨rfl, should_locate_recovers_from_value_error "fallback" (Query.mk (Except.error ())) () rfl⟩

/-- C6: Calling the cluster accuracy estimator with an empty observation
sequence is a precondition violation: `_estimate_accuracy` fails with the
error the spec names `EmptyCluster` (in the source, Python's `max` raises
`ValueError` on the empty distance list), for every distance function,
centroid and minimum. -/
theorem estimate_accuracy_empty_cluster_error (dist : ℚ → ℚ → ℚ → ℚ → ℚ)
    (lat lon minimum : ℚ) :
    estimate_accuracy dist lat lon [] minimum =
      Except.error ClusterError.emptyCluster := rfl

/-- C9: `log_hit` emits exactly the counter `{log_name}_hit` regardless of
the caller's logging flag, while `log_success` and `log_failure` emit exactly
`api_log.{caller_key}.{log_name}_hit` and `api_log.{caller_key}.{log_name}_miss`
respectively when the caller's logging flag is set, and emit nothing at all
when it is not. -/
theorem log_metrics_exact (log_name : String) (api_key : ApiKey) :
    log_hit log_name api_key = [log_name ++ "_hit"] ∧
    log_success log_name api_key =
      (if api_key.log then ["api_log." ++ api_key.name ++ "." ++ log_name ++ "_hit"]
       else []) ∧
    log_failure log_name api_key =
      (if api_key.log then ["api_log." ++ api_key.name ++ "." ++ log_name ++ "_miss"]
       else []) :=
  ⟨rfl, rfl, rfl⟩

/-- C1: For every sequence of two or more observations, `_estimate_accuracy`
computes the candidate accuracy `m` as the maximum over the observations of
the distance from `(lat, lon)` to the observation's position converted to
meters (`dist * 1000`, `dist` being the kilometer-valued great-circle
distance): `m` is attained at some observation, bounds all of them, and the
result is `m` floored at `minimum`. -/
theorem estimate_accuracy_multi_is_max_distance (dist : ℚ → ℚ → ℚ → ℚ → ℚ)
    (lat lon minimum : ℚ) (points : List Network) (h : 2 ≤ points.length) :
    ∃ m, estimate_accuracy dist lat lon points minimum = Except.ok (max m minimum) ∧
      (∃ p ∈ points, dist lat lon p.lat p.lon * 1000 = m) ∧
      (∀ p ∈ points, dist lat lon p.lat p.lon * 1000 ≤ m) := by
  rcases points with _ | ⟨a, _ | ⟨b, t⟩⟩
  · simp at h
  · simp at h
  · refine ⟨((b :: t).map (fun p => dist lat lon p.lat p.lon * 1000)).foldl max
      (dist lat lon a.lat a.lon * 1000),
      estimate_accuracy_cons_cons dist lat lon minimum a b t, ?_, ?_⟩
    · rcases foldl_max_eq_init_or_mem
        ((b :: t).map (fun p => dist lat lon p.lat p.lon * 1000))
        (dist lat lon a.lat a.lon * 1000) with h1 | h1
      · exact ⟨a, List.mem_cons_self a (b :: t), h1.symm⟩
      · rcases List.mem_map.mp h1 with ⟨p, hp, hfp⟩
        exact ⟨p, List.mem_cons_of_mem a hp, hfp⟩
    · intro p hp
      rcases List.mem_cons.mp hp with h2 | h2
      · subst h2
        exact le_foldl_max _ _
      · exact mem_le_foldl_max _ _ _ (List.mem_map_of_mem _ h2)

/-- Witness for C1 on a concrete two-observation cluster. -/
theorem estimate_accuracy_multi_is_max_distance_witness :
    2 ≤ ([Network.mk "a" 1 0 Option.none, Network.mk "b" 2 0 Option.none] :
      List Network).length ∧
    ∃ m, estimate_accuracy (fun _ _ la _ => la) 0 0
        [Network.mk "a" 1 0 Option.none, Network.mk "b" 2 0 Option.none] 5 =
          Except.ok (max m 5) ∧
      (∃ p ∈ [Network.mk "a" 1 0 Option.none, Network.mk "b" 2 0 Option.none],
        (fun (_ _ la _ : ℚ) => la) 0 0 p.lat p.lon * 1000 = m) ∧
      (∀ p ∈ [Network.mk "a" 1 0 Option.none, Network.mk "b" 2 0 Option.none],
        (fun (_ _ la _ : ℚ) => la) 0 0 p.lat p.lon * 1000 ≤ m) :=
  ⟨by decide, estimate_accuracy_multi_is_max_distance (fun _ _ la _ => la) 0 0 5
    [Network.mk "a" 1 0 Option.none, Network.mk "b" 2 0 Option.none] (by decide)⟩

/-- C3: For every non-empty observation sequence, the accuracy returned by
`_estimate_accuracy` is non-null (an `Except.ok` value) and at least the
given minimum; and a single observation with a null range yields the minimum
alone. -/
theorem estimate_accuracy_ge_minimum (dist : ℚ → ℚ → ℚ → ℚ → ℚ)
    (lat lon minimum : ℚ) (points : List Network) (h : points ≠ []) :
    (∃ a, estimate_accuracy dist lat lon points minimum = Except.ok a ∧
      minimum ≤ a) ∧
    (∀ k la lo, points = [Network.mk k la lo Option.none] →
      estimate_accuracy dist lat lon points minimum = Except.ok minimum) := by
  constructor
  · rcases points with _ | ⟨p, _ | ⟨b, t⟩⟩
    · exact absurd rfl h
    · refine ⟨pyMaxOpt p.range minimum,
        estimate_accuracy_single dist lat lon minimum p, ?_⟩
      cases p.range with
      | none => exact le_refl minimum
      | some x => exact le_max_right x minimum
    · exact ⟨_, estimate_accuracy_cons_cons dist lat lon minimum p b t,
        le_max_right _ _⟩
  · intro k la lo hp
    rw [hp]
    rfl

/-- Witness for C3 on a concrete single-observation cluster with null range. -/
theorem estimate_accuracy_ge_minimum_witness :
    ([Network.mk "a" 0 0 Option.none] : List Network) ≠ [] ∧
    ((∃ a, estimate_accuracy (fun _ _ _ _ => 0) 0 0
        [Network.mk "a" 0 0 Option.none] 5 = Except.ok a ∧ 5 ≤ a) ∧
     (∀ k la lo, ([Network.mk "a" 0 0 Option.none] : List Network) =
        [Network.mk k la lo Option.none] →
       estimate_accuracy (fun _ _ _ _ => 0) 0 0
         [Network.mk "a" 0 0 Option.none] 5 = Except.ok 5)) :=
  ⟨by decide, estimate_accuracy_ge_minimum (fun _ _ _ _ => 0) 0 0 5
    [Network.mk "a" 0 0 Option.none] (by decide)⟩

/-- C2 counterexample: a single-observation cluster with non-null range 10
and minimum 100 returns 100 (the minimum), not the observation's range, so
the result is not "exactly that observation's own range" when the minimum is
larger. -/
theorem estimate_accuracy_single_min_overrides_range :
    estimate_accuracy (fun _ _ _ _ => 0) 0 0
      [Network.mk "a" 0 0 (some 10)] 100 = Except.ok 100 ∧ (100 : ℚ) ≠ 10 := by
  constructor
  · show Except.ok (pyMaxOpt (some 10) 100) = Except.ok (100 : ℚ)
    norm_num [pyMaxOpt]
  · norm_num

/-- C2 amended: a single-observation cluster with a non-null range returns
exactly that range when the configured minimum does not exceed it (when the
minimum is larger, the minimum is returned instead). -/
theorem estimate_accuracy_single_range_when_above_minimum
    (dist : ℚ → ℚ → ℚ → ℚ → ℚ) (lat lon minimum r : ℚ) (key : String)
    (la lo : ℚ) (h : minimum ≤ r) :
    estimate_accuracy dist lat lon [Network.mk key la lo (some r)] minimum =
      Except.ok r := by
  rw [estimate_accuracy_single]
  show Except.ok (max r minimum) = Except.ok r
  rw [max_eq_left h]

/-- Witness for the amended C2 with range 10 and minimum 5. -/
theorem estimate_accuracy_single_range_when_above_minimum_witness :
    (5 : ℚ) ≤ 10 ∧
    estimate_accuracy (fun _ _ _ _ => 0) 0 0
      [Network.mk "a" 0 0 (some 10)] 5 = Except.ok 10 :=
  ⟨by norm_num, estimate_accuracy_single_range_when_above_minimum
    (fun _ _ _ _ => 0) 0 0 5 10 "a" 0 0 (by norm_num)⟩

/-- C7: For a fixed centroid and a multi-observation cluster (at least two
points), extending the observation sequence with an additional observation
never decreases the accuracy returned by `_estimate_accuracy`. -/
theorem estimate_accuracy_append_monotone (dist : ℚ → ℚ → ℚ → ℚ → ℚ)
    (lat lon minimum : ℚ) (points : List Network) (q : Network)
    (h : 2 ≤ points.length) :
    ∃ a b, estimate_accuracy dist lat lon points minimum = Except.ok a ∧
      estimate_accuracy dist lat lon (points ++ [q]) minimum = Except.ok b ∧
      a ≤ b := by
  rcases points with _ | ⟨x, _ | ⟨y, t⟩⟩
  · simp at h
  · simp at h
  · refine ⟨_, max (((y :: (t ++ [q])).map (fun p => dist lat lon p.lat p.lon * 1000)).foldl
        max (dist lat lon x.lat x.lon * 1000)) minimum,
      estimate_accuracy_cons_cons dist lat lon minimum x y t, ?_, ?_⟩
    · exact estimate_accuracy_cons_cons dist lat lon minimum x y (t ++ [q])
    · have hm : ((y :: (t ++ [q])).map (fun p => dist lat lon p.lat p.lon * 1000)).foldl
          max (dist lat lon x.lat x.lon * 1000) =
        max (((y :: t).map (fun p => dist lat lon p.lat p.lon * 1000)).foldl max
          (dist lat lon x.lat x.lon * 1000)) (dist lat lon q.lat q.lon * 1000) := by
        simp only [List.map_cons, List.map_append, List.map_nil, List.foldl_cons]
        exact foldl_max_append _ _ _
      rw [hm]
      exact max_le_max (le_max_left _ _) (le_refl minimum)

/-- Witness for C7 on a concrete two-observation cluster extended by a third. -/
theorem estimate_accuracy_append_monotone_witness :
    2 ≤ ([Network.mk "a" 1 0 Option.none, Network.mk "b" 2 0 Option.none] :
      List Network).length ∧
    ∃ a b, estimate_accuracy (fun _ _ la _ => la) 0 0
        [Network.mk "a" 1 0 Option.none, Network.mk "b" 2 0 Option.none] 5 =
          Except.ok a ∧
      estimate_accuracy (fun _ _ la _ => la) 0 0
        ([Network.mk "a" 1 0 Option.none, Network.mk "b" 2 0 Option.none] ++
          [Network.mk "c" 3 0 Option.none]) 5 = Except.ok b ∧
      a ≤ b :=
  ⟨by decide, estimate_accuracy_append_monotone (fun _ _ la _ => la) 0 0 5
    [Network.mk "a" 1 0 Option.none, Network.mk "b" 2 0 Option.none]
    (Network.mk "c" 3 0 Option.none) (by decide)⟩

/-- C4 counterexample: with `fallback_field = "fallback"` and a fallback map
binding `"fallback"` to the non-boolean falsy value `0`, `should_locate`
returns false, although the map does not map the field to the boolean false —
refuting both directions of the claim ("false only for boolean false",
"non-boolean values yield true"). -/
theorem should_locate_false_on_falsy_nonboolean :
    (should_locate (some "fallback")
      (Query.mk (Except.ok [("fallback", PyVal.int 0)])) ()).1 = false ∧
    PyVal.int 0 ≠ PyVal.bool false := by
  constructor
  · rfl
  · decide

/-- C4 amended: `should_locate` returns false exactly when a `fallback_field`
is configured, the query's fallback map is read successfully and is
non-empty, and the value it holds for that field (defaulting to true when the
key is absent) is falsy under Python's `bool` coercion — `False`, `0`, `''`
or `None` — not only for the boolean false. -/
theorem should_locate_false_iff_falsy_value {α : Type}
    (fallback_field : Option String) (q : Query) (location : α) :
    (should_locate fallback_field q location).1 = false ↔
      ∃ field d, fallback_field = some field ∧ q.fallbacks = Except.ok d ∧
        d.isEmpty = false ∧
        (dictGet d field (PyVal.bool true)).truthy = false := by
  rcases fallback_field with _ | field
  · simp [should_locate]
  · rcases q with ⟨fb⟩
    rcases fb with e | d
    · simp [should_locate]
    · by_cases hd : d.isEmpty
      · have hde : d = [] := by
          cases d with
          | nil => rfl
          | cons p ps => cases hd
        subst hde
        simp [should_locate]
      · have hd2 : ¬ d = [] := by
          intro hnil
          rw [hnil] at hd
          exact hd rfl
        simp [should_locate, hd, hd2]

end Ichnaea
